import Mathlib

/-!
# A verification development for `pair.hxx`

A shallow embedding of the class template `pair<T, U>` of `src/pair.hxx`
(constructors, assignment operators, accessors, comparison operators,
destructuring support), and theorems about it.

Modelling conventions.

* An element type `T` of the template is a Lean type together with a record
  `Element ε T` of the operations the header calls on it: its constructors,
  its assignment from an rvalue, its `==` and its `<`, and the no-throw traits
  the `noexcept` clauses read. The move operations are also given on
  `MovableElement ε T`, which covers element types that cannot be copied and
  element types with a constructor from a non-const lvalue.
* A C++ call either returns, or lets an exception escape, or ends the program
  through `std::terminate` (an exception that meets a `noexcept` boundary):
  `Outcome ε α`.
* A function whose instantiation can fail to compile has a result in
  `Formed`: `ill_formed`, or what a call of the instantiated function does.
* Objects are values; a function that takes an object by mutable reference
  returns the object as it is afterwards. A returned reference is given by the
  object it designates.
-/

namespace PairHxx

/-! ## Outcomes of a call -/

/-- The three ways a call can end: it returns `a`, an exception `e` escapes to
the caller, or `std::terminate` is called. -/
inductive Outcome (ε α : Type) where
  | value (a : α) : Outcome ε α
  | throws (e : ε) : Outcome ε α
  | terminate : Outcome ε α
  deriving DecidableEq, Repr

/-- Sequencing: the continuation runs only when the first call returned. -/
def Outcome.bind {ε α β : Type} : Outcome ε α → (α → Outcome ε β) → Outcome ε β
  | .value a, k => k a
  | .throws e, _ => .throws e
  | .terminate, _ => .terminate

instance {ε : Type} : Monad (Outcome ε) where
  pure := Outcome.value
  bind := Outcome.bind

/-- A function declared `noexcept`: an exception that would escape it ends the
program with `std::terminate`. -/
def noexcept {ε α : Type} : Outcome ε α → Outcome ε α
  | .throws _ => .terminate
  | o => o

/-- A function declared `noexcept(b)`. -/
def noexceptIf {ε α : Type} (b : Bool) (o : Outcome ε α) : Outcome ε α :=
  if b then noexcept o else o

/-! ## Instantiations, value categories, returned references -/

/-- What the instantiation of a function template, or of a member function of a
class template, yields: a program that does not compile (`ill_formed`), or a
function, given by what a call of it does (`well_formed`). -/
inductive Formed (α : Type) where
  | ill_formed : Formed α
  | well_formed (run : α) : Formed α
  deriving DecidableEq, Repr

/-- A function whose body calls another instantiation: it is ill-formed when
that instantiation is, and otherwise does `f` with what the call does. -/
def Formed.map {α β : Type} (f : α → β) : Formed α → Formed β
  | .ill_formed => .ill_formed
  | .well_formed run => .well_formed (f run)

/-- The value category of an expression. -/
inductive ValueCategory where
  | lvalue : ValueCategory
  | xvalue : ValueCategory
  | prvalue : ValueCategory
  deriving DecidableEq, Repr

/-- The objects that the reference returned by a call `x.operator=(rhs)` can
designate: `*this`, the object assigned to, or the argument. -/
inductive Designated where
  | star_this : Designated
  | rhs : Designated
  deriving DecidableEq, Repr

/-! ## Element types -/

/-- What the header uses of an element type `T`.

* `nothrow_*`: the values of `std::is_nothrow_*<T>`, read by the `noexcept`
  clauses.
* `default_construct`: `T()`.
* `copy_construct src`: `T(const T&)`, the new object.
* `move_construct src`: `T(T&&)`, the new object and what is left in `src`.
* `assign_rvalue dst src`: `dst = <rvalue src>`, the assignment operator that
  overload resolution selects for an rvalue right-hand side (the header never
  assigns an element from an lvalue); the result is `dst` afterwards, also
  when an exception escapes, together with the outcome.
* `eq a b`: `a == b`; `lt a b`: `a < b`; both are taken to return. -/
structure Element (ε T : Type) where
  nothrow_default_constructible : Bool
  nothrow_copy_constructible : Bool
  nothrow_move_constructible : Bool
  nothrow_copy_assignable : Bool
  nothrow_move_assignable : Bool
  default_construct : Outcome ε T
  copy_construct : T → Outcome ε T
  move_construct : T → Outcome ε (T × T)
  assign_rvalue : T → T → T × Outcome ε Unit
  eq : T → T → Bool
  lt : T → T → Bool

/-! ## The class `pair` -/

/-- The data members `m_first` and `m_second` (lines 193-195). -/
structure pair (T U : Type) where
  m_first : T
  m_second : U
  deriving DecidableEq, Repr

section
variable {ε T U : Type}

/-- `first(this Self&& self) noexcept` called on an lvalue (lines 184-185): the
return type is `auto`, so the slot is copied into the returned object. -/
def pair.first (E : Element ε T) (self : pair T U) : Outcome ε T :=
  noexcept (E.copy_construct self.m_first)

/-- `second(this Self&& self) noexcept` called on an lvalue (lines 189-190). -/
def pair.second (F : Element ε U) (self : pair T U) : Outcome ε U :=
  noexcept (F.copy_construct self.m_second)

/-- `pair()` (lines 60-67): `m_first(), m_second()`. -/
def pair.pair_default (E : Element ε T) (F : Element ε U) : Outcome ε (pair T U) :=
  noexceptIf (E.nothrow_default_constructible && F.nothrow_default_constructible) do
    let m1 ← E.default_construct
    let m2 ← F.default_construct
    pure ⟨m1, m2⟩

/-- `pair(const first_type& first, const second_type& second)` (lines 72-79):
`m_first(first), m_second(second)`. -/
def pair.pair_values (E : Element ε T) (F : Element ε U) (first : T) (second : U) :
    Outcome ε (pair T U) :=
  noexceptIf (E.nothrow_copy_constructible && F.nothrow_copy_constructible) do
    let m1 ← E.copy_construct first
    let m2 ← F.copy_construct second
    pure ⟨m1, m2⟩

/-- `pair(const pair& other)` (lines 134-142):
`m_first(other.first()), m_second(other.second())`. The object an accessor
returns initialises the member directly. -/
def pair.pair_copy (E : Element ε T) (F : Element ε U) (other : pair T U) :
    Outcome ε (pair T U) :=
  noexceptIf (E.nothrow_copy_constructible && F.nothrow_copy_constructible) do
    let m1 ← other.first E
    let m2 ← other.second F
    pure ⟨m1, m2⟩

/-- `pair(pair&& other)` (lines 145-153) on element types that are copied by
`T(const T&)`:
`m_first(std::move(other.first())), m_second(std::move(other.second()))`.
`other` is a named reference, hence an lvalue: each accessor returns a
temporary copy of the slot, and the member is move-constructed from that
temporary, which is then destroyed. The result is the new pair together with
`other` as it is afterwards. The move constructor on every element type, also
one that cannot be copied or that has a constructor `T(T&)`, is
`pair.pair_move_general`. -/
def pair.pair_move (E : Element ε T) (F : Element ε U) (other : pair T U) :
    Outcome ε (pair T U × pair T U) :=
  noexceptIf (E.nothrow_move_constructible && F.nothrow_move_constructible) do
    let t1 ← other.first E
    let r1 ← E.move_construct t1
    let t2 ← other.second F
    let r2 ← F.move_construct t2
    pure (⟨r1.1, r2.1⟩, other)

/-- Statement sequencing inside a member function: the next statement runs on
the object as the previous statement left it, and only when that statement
completed. -/
def andThen {σ α : Type} (s : σ × Outcome ε Unit) (k : σ → σ × Outcome ε α) :
    σ × Outcome ε α :=
  match s with
  | (x, .value _) => k x
  | (x, .throws e) => (x, .throws e)
  | (x, .terminate) => (x, .terminate)

/-- The statement `m_first = rhs.first();` (line 162), and equally
`m_first = std::move( rhs.first() );` (line 175): the accessor returns a
temporary copy of the slot of `rhs`, an rvalue in both spellings, which is
assigned to `m_first`. -/
def pair.assign_first (E : Element ε T) (self rhs : pair T U) : pair T U × Outcome ε Unit :=
  match rhs.first E with
  | .value t => ({ self with m_first := (E.assign_rvalue self.m_first t).1 },
                 (E.assign_rvalue self.m_first t).2)
  | .throws e => (self, .throws e)
  | .terminate => (self, .terminate)

/-- The statement `m_second = rhs.second();` (line 163), and equally
`m_second = std::move( rhs.second() );` (line 176). -/
def pair.assign_second (F : Element ε U) (self rhs : pair T U) : pair T U × Outcome ε Unit :=
  match rhs.second F with
  | .value t => ({ self with m_second := (F.assign_rvalue self.m_second t).1 },
                 (F.assign_rvalue self.m_second t).2)
  | .throws e => (self, .throws e)
  | .terminate => (self, .terminate)

/-- `operator=(const pair& rhs)` (lines 156-166). The result is `*this` as it
is afterwards, and the outcome; a call that completes returns a reference,
given by the object it designates: `return *this;` (line 165). -/
def pair.operator_assign_copy (E : Element ε T) (F : Element ε U) (self rhs : pair T U) :
    pair T U × Outcome ε Designated :=
  let r := andThen (self.assign_first E rhs) fun s1 =>
           andThen (s1.assign_second F rhs) fun s2 => (s2, Outcome.value Designated.star_this)
  (r.1, noexceptIf (E.nothrow_copy_assignable && F.nothrow_copy_assignable) r.2)

/-- `operator=(pair&& rhs)` (lines 169-179) on element types that are copied
by `T(const T&)`, so that the accessors leave `rhs` as it is; the result is
`*this` as it is afterwards, and the outcome (`return *this;`, line 178). The
move assignment on every element type, with `rhs` in the result, is
`pair.operator_assign_move_general`. -/
def pair.operator_assign_move (E : Element ε T) (F : Element ε U) (self rhs : pair T U) :
    pair T U × Outcome ε Designated :=
  let r := andThen (self.assign_first E rhs) fun s1 =>
           andThen (s1.assign_second F rhs) fun s2 => (s2, Outcome.value Designated.star_this)
  (r.1, noexceptIf (E.nothrow_move_assignable && F.nothrow_move_assignable) r.2)

/-! ## The comparison operators of the header (lines 200-250)

Each operator compares `std::tie(first(), second())` of both sides, or calls
an operator that does. -/

/-- The comparisons of the standard library on `std::tuple<T&, U&>`, which the
header calls on the results of `std::tie`: `less x y` is `x < y` and
`equal x y` is `x == y`, on the values the tuples refer to. -/
structure TupleComparisons (T U : Type) where
  less : T × U → T × U → Bool
  equal : T × U → T × U → Bool

/-- The value category of the calls `p.first()` and `p.second()`: the declared
return type `auto` (lines 185 and 190) is never a reference type, so a call
is a prvalue, whatever the value category of `p` is. -/
def pair.accessor_call_category : ValueCategory := ValueCategory.prvalue

/-- Whether the call `std::tie(a, b)` is well-formed for arguments of the given
value categories: the parameters of `std::tie` are `Types&...`, lvalue
references to the deduced argument types, and such a reference binds to an
lvalue only. -/
def std_tie_binds (a b : ValueCategory) : Bool :=
  decide (a = ValueCategory.lvalue) && decide (b = ValueCategory.lvalue)

/-- `lexicographical_compare(lhs, rhs)` (lines 201-207):
`std::tie(lhs.first(), lhs.second()) < std::tie(rhs.first(), rhs.second())`,
declared `noexcept`. -/
def lexicographical_compare (C : TupleComparisons T U) (E : Element ε T) (F : Element ε U)
    (lhs rhs : pair T U) : Formed (Outcome ε Bool) :=
  if std_tie_binds pair.accessor_call_category pair.accessor_call_category &&
      std_tie_binds pair.accessor_call_category pair.accessor_call_category then
    Formed.well_formed (noexcept do
      let a ← lhs.first E
      let b ← lhs.second F
      let c ← rhs.first E
      let d ← rhs.second F
      pure (C.less (a, b) (c, d)))
  else Formed.ill_formed

/-- `operator==(lhs, rhs)` (lines 209-215):
`std::tie(lhs.first(), lhs.second()) == std::tie(rhs.first(), rhs.second())`,
declared `noexcept`. -/
def operator_eq (C : TupleComparisons T U) (E : Element ε T) (F : Element ε U)
    (lhs rhs : pair T U) : Formed (Outcome ε Bool) :=
  if std_tie_binds pair.accessor_call_category pair.accessor_call_category &&
      std_tie_binds pair.accessor_call_category pair.accessor_call_category then
    Formed.well_formed (noexcept do
      let a ← lhs.first E
      let b ← lhs.second F
      let c ← rhs.first E
      let d ← rhs.second F
      pure (C.equal (a, b) (c, d)))
  else Formed.ill_formed

/-- `operator!=(lhs, rhs)` (lines 217-222): `not(lhs == rhs)`. -/
def operator_ne (C : TupleComparisons T U) (E : Element ε T) (F : Element ε U)
    (lhs rhs : pair T U) : Formed (Outcome ε Bool) :=
  (operator_eq C E F lhs rhs).map fun call => noexcept do
    let r ← call
    pure (!r)

/-- `operator<(lhs, rhs)` (lines 238-243): `lexicographical_compare(lhs, rhs)`. -/
def operator_lt (C : TupleComparisons T U) (E : Element ε T) (F : Element ε U)
    (lhs rhs : pair T U) : Formed (Outcome ε Bool) :=
  (lexicographical_compare C E F lhs rhs).map fun call => noexcept call

/-- `operator>(lhs, rhs)` (lines 224-229): `lexicographical_compare(rhs, lhs)`. -/
def operator_gt (C : TupleComparisons T U) (E : Element ε T) (F : Element ε U)
    (lhs rhs : pair T U) : Formed (Outcome ε Bool) :=
  (lexicographical_compare C E F rhs lhs).map fun call => noexcept call

/-- `operator>=(lhs, rhs)` (lines 231-236): `not(lhs < rhs)`. -/
def operator_ge (C : TupleComparisons T U) (E : Element ε T) (F : Element ε U)
    (lhs rhs : pair T U) : Formed (Outcome ε Bool) :=
  (operator_lt C E F lhs rhs).map fun call => noexcept do
    let r ← call
    pure (!r)

/-- `operator<=(lhs, rhs)` (lines 245-250): `not(rhs < lhs)`. -/
def operator_le (C : TupleComparisons T U) (E : Element ε T) (F : Element ε U)
    (lhs rhs : pair T U) : Formed (Outcome ε Bool) :=
  (operator_lt C E F rhs lhs).map fun call => noexcept do
    let r ← call
    pure (!r)

/-! ## The move operations on every element type (lines 144-153, 168-179) -/

/-- What the move constructor and the move assignment of the pair use of an
element type `T`, also of one that cannot be copied.

* `nothrow_move_constructible`, `nothrow_move_assignable`: the traits that
  their `noexcept` clauses read.
* `construct_from_lvalue`: the construction of a `T` from a non-const lvalue
  of type `T`, by the constructor that overload resolution selects for such
  an argument, `T(T&)` when `T` has one and `T(const T&)` otherwise; the
  result is the new object and the lvalue as it is afterwards. It is `none`
  when `T` has no such constructor (`std::is_constructible<T, T&>` is false,
  as for `std::unique_ptr`).
* `move_construct`, `assign_rvalue`: as in `Element`. -/
structure MovableElement (ε T : Type) where
  nothrow_move_constructible : Bool
  nothrow_move_assignable : Bool
  construct_from_lvalue : Option (T → Outcome ε (T × T))
  move_construct : T → Outcome ε (T × T)
  assign_rvalue : T → T → T × Outcome ε Unit

/-- An element type that is copied by `T(const T&)`, as the move operations
see it: the construction from a non-const lvalue is the copy constructor,
which leaves its source as it was. -/
def Element.toMovable (E : Element ε T) : MovableElement ε T where
  nothrow_move_constructible := E.nothrow_move_constructible
  nothrow_move_assignable := E.nothrow_move_assignable
  construct_from_lvalue := some fun x => do
    let c ← E.copy_construct x
    pure (c, x)
  move_construct := E.move_construct
  assign_rvalue := E.assign_rvalue

/-- `first(this Self&& self) noexcept` called on a non-const lvalue (lines
184-185), for an element type constructed from a non-const lvalue by `c`: the
returned object is constructed from the slot `m_first`, a non-const lvalue.
The result is the returned object and the pair as it is afterwards. -/
def pair.first_nonconst (c : T → Outcome ε (T × T)) (self : pair T U) :
    Outcome ε (T × pair T U) :=
  noexcept do
    let r ← c self.m_first
    pure (r.1, { self with m_first := r.2 })

/-- `second(this Self&& self) noexcept` called on a non-const lvalue (lines
189-190). -/
def pair.second_nonconst (c : U → Outcome ε (U × U)) (self : pair T U) :
    Outcome ε (U × pair T U) :=
  noexcept do
    let r ← c self.m_second
    pure (r.1, { self with m_second := r.2 })

/-- `pair(pair&& other)` (lines 145-153), for element types that satisfy its
`requires` clause:
`m_first(std::move(other.first())), m_second(std::move(other.second()))`.
`other` is a named reference, hence a non-const lvalue, and the accessors are
instantiated for it: their bodies construct the returned object from an
lvalue and are ill-formed for an element type that cannot be so constructed.
Each accessor returns a temporary, from which the member is move-constructed.
The result of a call is the new pair together with `other` as it is
afterwards. -/
def pair.pair_move_general (E : MovableElement ε T) (F : MovableElement ε U)
    (other : pair T U) : Formed (Outcome ε (pair T U × pair T U)) :=
  match E.construct_from_lvalue, F.construct_from_lvalue with
  | some c1, some c2 =>
    Formed.well_formed
      (noexceptIf (E.nothrow_move_constructible && F.nothrow_move_constructible) do
        let a ← other.first_nonconst c1
        let r1 ← E.move_construct a.1
        let b ← a.2.second_nonconst c2
        let r2 ← F.move_construct b.1
        pure (⟨r1.1, r2.1⟩, b.2))
  | _, _ => Formed.ill_formed

/-- The statement `m_first = std::move( rhs.first() );` (line 175) on the state
`(*this, rhs)`: the accessor, called on the non-const lvalue `rhs`, returns a
temporary, which is assigned to `m_first`. -/
def pair.move_assign_first (E : MovableElement ε T) (c : T → Outcome ε (T × T))
    (st : pair T U × pair T U) : (pair T U × pair T U) × Outcome ε Unit :=
  match st.2.first_nonconst c with
  | .value r => (({ st.1 with m_first := (E.assign_rvalue st.1.m_first r.1).1 }, r.2),
                 (E.assign_rvalue st.1.m_first r.1).2)
  | .throws e => (st, .throws e)
  | .terminate => (st, .terminate)

/-- The statement `m_second = std::move( rhs.second() );` (line 176) on the
state `(*this, rhs)`. -/
def pair.move_assign_second (F : MovableElement ε U) (c : U → Outcome ε (U × U))
    (st : pair T U × pair T U) : (pair T U × pair T U) × Outcome ε Unit :=
  match st.2.second_nonconst c with
  | .value r => (({ st.1 with m_second := (F.assign_rvalue st.1.m_second r.1).1 }, r.2),
                 (F.assign_rvalue st.1.m_second r.1).2)
  | .throws e => (st, .throws e)
  | .terminate => (st, .terminate)

/-- `operator=(pair&& rhs)` (lines 169-179), for element types that satisfy its
`requires` clause and for `rhs` another object than `*this`. The result of a
call is `(*this, rhs)` as they are afterwards, and the outcome; a call that
completes returns a reference to `*this` (line 178). -/
def pair.operator_assign_move_general (E : MovableElement ε T) (F : MovableElement ε U)
    (self rhs : pair T U) : Formed ((pair T U × pair T U) × Outcome ε Designated) :=
  match E.construct_from_lvalue, F.construct_from_lvalue with
  | some c1, some c2 =>
    Formed.well_formed
      ((andThen (pair.move_assign_first E c1 (self, rhs)) fun s1 =>
          andThen (pair.move_assign_second F c2 s1) fun s2 =>
            (s2, Outcome.value Designated.star_this)).1,
       noexceptIf (E.nothrow_move_assignable && F.nothrow_move_assignable)
        (andThen (pair.move_assign_first E c1 (self, rhs)) fun s1 =>
          andThen (pair.move_assign_second F c2 s1) fun s2 =>
            (s2, Outcome.value Designated.star_this)).2)
  | _, _ => Formed.ill_formed

/-! ## Calling scopes

The claims about copies speak of objects of the caller that change after a
pair was built from them. A calling scope is a record of its objects; a
statement of the caller maps the scope before it to the scope after it. -/

/-- The objects of a scope `T a; U b; pair<T, U> p(a, b);`. -/
structure ValueScope (T U : Type) where
  a : T
  b : U
  p : pair T U
  deriving DecidableEq, Repr

/-- The declaration `pair<T, U> p(a, b);` in a scope that holds `a` and `b`:
the two-value constructor receives references to `a` and `b`. -/
def ValueScope.declare_p (E : Element ε T) (F : Element ε U) (a : T) (b : U) :
    Outcome ε (ValueScope T U) := do
  let p ← pair.pair_values E F a b
  pure ⟨a, b, p⟩

/-- A later statement of the caller that changes `a` to `v`. -/
def ValueScope.set_a (s : ValueScope T U) (v : T) : ValueScope T U := { s with a := v }

/-- A later statement of the caller that changes `b` to `v`. -/
def ValueScope.set_b (s : ValueScope T U) (v : U) : ValueScope T U := { s with b := v }

/-- The objects of a scope `pair<T, U> p; pair<T, U> q(p);`. -/
structure PairScope (T U : Type) where
  p : pair T U
  q : pair T U
  deriving DecidableEq, Repr

/-- The declaration `pair<T, U> q(p);` in a scope that holds `p`: the copy
constructor receives a reference to `p`, through which it only reads. -/
def PairScope.declare_q_copy (E : Element ε T) (F : Element ε U) (p : pair T U) :
    Outcome ε (PairScope T U) := do
  let q ← pair.pair_copy E F p
  pure ⟨p, q⟩

/-- The declaration `pair<T, U> q(std::move(p));` in a scope that holds `p`:
the move constructor receives a reference to `p`; the scope afterwards holds
`p` as the constructor left it, and `q`. -/
def PairScope.declare_q_move (E : MovableElement ε T) (F : MovableElement ε U)
    (p : pair T U) : Formed (Outcome ε (PairScope T U)) :=
  (pair.pair_move_general E F p).map fun call => do
    let r ← call
    pure ⟨r.2, r.1⟩

/-- The statement `q = std::move(p);` of the caller: move assignment to `q`,
which receives a reference to `p`; the scope afterwards holds `p` and `q` as
the assignment left them. -/
def PairScope.move_assign_q_p (E : MovableElement ε T) (F : MovableElement ε U)
    (s : PairScope T U) : Formed (PairScope T U × Outcome ε Designated) :=
  (s.q.operator_assign_move_general E F s.p).map fun r => (⟨r.1.2, r.1.1⟩, r.2)

/-- The statement `q = r;` of the caller: copy assignment to `q`. -/
def PairScope.assign_q (E : Element ε T) (F : Element ε U) (s : PairScope T U)
    (r : pair T U) : PairScope T U × Outcome ε Designated :=
  ({ s with q := (s.q.operator_assign_copy E F r).1 }, (s.q.operator_assign_copy E F r).2)

/-- The objects of a scope `pair<T, U> x, y, z;`. -/
structure AssignScope (T U : Type) where
  x : pair T U
  y : pair T U
  z : pair T U
  deriving DecidableEq, Repr

/-- The statement `x = y;` of the caller: copy assignment, which receives `y`
by reference to const. -/
def AssignScope.assign_x_y (E : Element ε T) (F : Element ε U) (s : AssignScope T U) :
    AssignScope T U × Outcome ε Designated :=
  ({ s with x := (s.x.operator_assign_copy E F s.y).1 }, (s.x.operator_assign_copy E F s.y).2)

/-- The assignment of `z` through a reference that a call `x = y` returned: the
target is the object the reference designates, `x` when that is `*this` of
the call and `y` when that is its argument. -/
def AssignScope.assign_z_through (E : Element ε T) (F : Element ε U) (s : AssignScope T U)
    (d : Designated) : AssignScope T U × Outcome ε Designated :=
  match d with
  | .star_this =>
    ({ s with x := (s.x.operator_assign_copy E F s.z).1 },
     (s.x.operator_assign_copy E F s.z).2)
  | .rhs =>
    ({ s with y := (s.y.operator_assign_copy E F s.z).1 },
     (s.y.operator_assign_copy E F s.z).2)

/-- The statement `(x = y) = z;` of the caller: when `x = y` completes, `z` is
assigned through the reference it returned. -/
def AssignScope.assign_chain (E : Element ε T) (F : Element ε U) (s : AssignScope T U) :
    AssignScope T U × Outcome ε Designated :=
  match s.assign_x_y E F with
  | (s1, .value d) => s1.assign_z_through E F d
  | (s1, .throws e) => (s1, .throws e)
  | (s1, .terminate) => (s1, .terminate)

/-! ## Destructuring support (lines 256-274) -/

/-- `first(this Self&& self) noexcept` called on an xvalue (lines 184-185):
`std::forward_like<Self>(self).m_first` is then an xvalue, so the slot is
moved into the returned object. The result is the returned object and the
pair as it is afterwards. -/
def pair.first_rvalue (E : Element ε T) (self : pair T U) : Outcome ε (T × pair T U) :=
  noexcept do
    let r ← E.move_construct self.m_first
    pure (r.1, { self with m_first := r.2 })

/-- `second(this Self&& self) noexcept` called on an xvalue (lines 189-190). -/
def pair.second_rvalue (F : Element ε U) (self : pair T U) : Outcome ε (U × pair T U) :=
  noexcept do
    let r ← F.move_construct self.m_second
    pure (r.1, { self with m_second := r.2 })

/-- `std::tuple_size<pair<T, U>>::value` (line 260). -/
def tuple_size (_T _U : Type) : Nat := 2

/-- `std::tuple_element<Index, pair<T, U>>::type` (line 263), inherited from
`std::tuple_element<Index, std::tuple<T, U>>`, which has no type for an index
out of range. -/
def tuple_element (T U : Type) : Nat → Option Type
  | 0 => some T
  | 1 => some U
  | _ => none

/-- The return type of `get<Index>` (line 268), `decltype(auto)`: the type of
the return statement that is instantiated, and `void` when neither
`if constexpr` is. -/
def GetResult (T U : Type) : Nat → Type
  | 0 => T
  | 1 => U
  | _ => Unit

/-- `get<Index>(pair)` called on an lvalue (lines 267-272). -/
def get (Index : Nat) (E : Element ε T) (F : Element ε U) (p : pair T U) :
    Outcome ε (GetResult T U Index) :=
  noexcept (match Index with
    | 0 => p.first E
    | 1 => p.second F
    | _ + 2 => Outcome.value ())

/-- `get<Index>(pair)` called on an xvalue (lines 267-272): the accessor is
then called on an xvalue. The result is the returned object and the pair as it
is afterwards. -/
def get_rvalue (Index : Nat) (E : Element ε T) (F : Element ε U) (p : pair T U) :
    Outcome ε (GetResult T U Index × pair T U) :=
  noexcept (match Index with
    | 0 => p.first_rvalue E
    | 1 => p.second_rvalue F
    | _ + 2 => Outcome.value ((), p))

/-- The declaration `auto [a, b] = p;` of a caller: a hidden object `e` is
copy-constructed from `p`, and the binding number `i` is initialised with
`get<i>` applied to `e` as an xvalue, in the order of the bindings. -/
def destructure (E : Element ε T) (F : Element ε U) (p : pair T U) : Outcome ε (T × U) := do
  let e ← pair.pair_copy E F p
  let r0 ← get_rvalue 0 E F e
  let r1 ← get_rvalue 1 E F r0.2
  pure (r0.1, r1.1)


/-! ## Piecewise construction (lines 95-110) -/

/-- The statement `p.first() = std::move(v);` of a caller that holds a mutable
pair `p` of a class-type element: `first()` returns an object by value, a
temporary; the assignment is to that temporary, which is destroyed at the end
of the statement. The result is `p` as it is afterwards, and the outcome. -/
def pair.write_through_first (E : Element ε T) (self : pair T U) (v : T) :
    pair T U × Outcome ε Unit :=
  match self.first E with
  | .value t => (self, (E.assign_rvalue t v).2)
  | .throws e => (self, .throws e)
  | .terminate => (self, .terminate)

/-- The statement `p.second() = std::move(v);` of a caller that holds a mutable
pair `p`. -/
def pair.write_through_second (F : Element ε U) (self : pair T U) (v : U) :
    pair T U × Outcome ε Unit :=
  match self.second F with
  | .value t => (self, (F.assign_rvalue t v).2)
  | .throws e => (self, .throws e)
  | .terminate => (self, .terminate)


/-! ## The `noexcept` clauses of the constructors -/

/-- The `noexcept` clause of `pair()` (lines 61-62). -/
def pair.pair_default_noexcept (E : Element ε T) (F : Element ε U) : Bool :=
  E.nothrow_default_constructible && F.nothrow_default_constructible

/-- The `noexcept` clause of `pair(const first_type&, const second_type&)`
(lines 73-74). -/
def pair.pair_values_noexcept (E : Element ε T) (F : Element ε U) : Bool :=
  E.nothrow_copy_constructible && F.nothrow_copy_constructible

/-- The `noexcept` clause of `pair(const pair&)` (lines 135-136). -/
def pair.pair_copy_noexcept (E : Element ε T) (F : Element ε U) : Bool :=
  E.nothrow_copy_constructible && F.nothrow_copy_constructible

/-- The `noexcept` clause of `pair(pair&&)` (lines 146-147). -/
def pair.pair_move_noexcept (E : Element ε T) (F : Element ε U) : Bool :=
  E.nothrow_move_constructible && F.nothrow_move_constructible


end

/-! ## Element types used as examples -/

/-- The element type `int`: every operation returns, copies and moves keep the
value, and a move leaves its source as it was. -/
def intElement {ε : Type} : Element ε Int where
  nothrow_default_constructible := true
  nothrow_copy_constructible := true
  nothrow_move_constructible := true
  nothrow_copy_assignable := true
  nothrow_move_assignable := true
  default_construct := .value 0
  copy_construct := fun x => .value x
  move_construct := fun x => .value (x, x)
  assign_rvalue := fun _ src => (src, .value ())
  eq := fun a b => decide (a = b)
  lt := fun a b => decide (a < b)

/-- An element type like `std::vector<int>`: a move hands the contents over and
leaves its source empty. -/
def vectorElement {ε : Type} : Element ε (List Int) where
  nothrow_default_constructible := true
  nothrow_copy_constructible := false
  nothrow_move_constructible := true
  nothrow_copy_assignable := false
  nothrow_move_assignable := true
  default_construct := .value []
  copy_construct := fun x => .value x
  move_construct := fun x => .value (x, [])
  assign_rvalue := fun _ src => (src, .value ())
  eq := fun a b => decide (a = b)
  lt := fun a b => decide (a < b)

/-- The exceptions of the element type `fragileElement`. -/
inductive Failure where
  | copy_failed : Failure
  | assign_failed : Failure
  deriving DecidableEq, Repr

/-- An element type over `int` whose operations can raise, like a class written
to test exception safety: copying a negative value raises `copy_failed`;
assigning the value `0` raises `assign_failed` and leaves the target as it
was. None of its operations is declared non-raising. -/
def fragileElement : Element Failure Int where
  nothrow_default_constructible := false
  nothrow_copy_constructible := false
  nothrow_move_constructible := false
  nothrow_copy_assignable := false
  nothrow_move_assignable := false
  default_construct := .value 1
  copy_construct := fun x => if x < 0 then .throws Failure.copy_failed else .value x
  move_construct := fun x => .value (x, x)
  assign_rvalue := fun dst src =>
    if src = 0 then (dst, .throws Failure.assign_failed) else (src, .value ())
  eq := fun a b => decide (a = b)
  lt := fun a b => decide (a < b)


/-- The operations of an element type that the header calls. -/
inductive ElementOp where
  | default_construct : ElementOp
  | copy_construct : ElementOp
  | move_construct : ElementOp
  | assign_rvalue : ElementOp
  deriving DecidableEq, Repr

/-- An instrumented element type, like a class that logs the calls of its
special member functions: an int together with the operations that made the
object, oldest first. Its traits are those of `std::vector<int>`: the move
constructor and the move assignment are declared non-raising, the copy
constructor and the copy assignment are not. A move leaves the value `0` in
its source. -/
def tracedElement {ε : Type} : Element ε (Int × List ElementOp) where
  nothrow_default_constructible := true
  nothrow_copy_constructible := false
  nothrow_move_constructible := true
  nothrow_copy_assignable := false
  nothrow_move_assignable := true
  default_construct := .value (0, [ElementOp.default_construct])
  copy_construct := fun a => .value (a.1, a.2 ++ [ElementOp.copy_construct])
  move_construct := fun a => .value ((a.1, a.2 ++ [ElementOp.move_construct]), (0, a.2))
  assign_rvalue := fun _ src => ((src.1, src.2 ++ [ElementOp.assign_rvalue]), .value ())
  eq := fun a b => decide (a.1 = b.1)
  lt := fun a b => decide (a.1 < b.1)


/-- The comparisons of `std::tuple<int&, int&>`: lexicographic order and
equality of the two ints. -/
def intTupleComparisons : TupleComparisons Int Int where
  less := fun x y => decide (x.1 < y.1 ∨ (x.1 = y.1 ∧ x.2 < y.2))
  equal := fun x y => decide (x.1 = y.1 ∧ x.2 = y.2)

/-- An element type like `std::unique_ptr<int>`, held as the pointee it owns or
`none` for a null pointer: it can be moved, which leaves its source null, and
cannot be constructed from an lvalue. -/
def uniquePtrElement {ε : Type} : MovableElement ε (Option Int) where
  nothrow_move_constructible := true
  nothrow_move_assignable := true
  construct_from_lvalue := none
  move_construct := fun x => .value (x, none)
  assign_rvalue := fun _ src => (src, .value ())

/-- An element type over `int` with a constructor `Thief(Thief&)`, which takes
the value of its argument and leaves `0` in it, beside a copy constructor
from `const Thief&` and a move constructor. -/
def thiefElement {ε : Type} : MovableElement ε Int where
  nothrow_move_constructible := true
  nothrow_move_assignable := true
  construct_from_lvalue := some fun x => .value (x, 0)
  move_construct := fun x => .value (x, 0)
  assign_rvalue := fun _ src => (src, .value ())


/-! ## Properties of element types used as hypotheses -/

section
variable {ε T : Type}

/-- Copy construction returns, and the new object has the value of its
source. -/
def Element.FaithfulCopy (E : Element ε T) : Prop :=
  ∀ x, E.copy_construct x = Outcome.value x

/-- Move construction returns, and the new object has the value its source
had; what is left in the source is up to the type. -/
def Element.FaithfulMove (E : Element ε T) : Prop :=
  ∀ x, ∃ r, E.move_construct x = Outcome.value (x, r)

/-- The relation `==` of the element type is reflexive. -/
def Element.EqReflexive (E : Element ε T) : Prop :=
  ∀ x, E.eq x x = true

/-- Assignment from an rvalue returns, and leaves in the target the value of
the source. -/
def Element.FaithfulAssign (E : Element ε T) : Prop :=
  ∀ dst src, E.assign_rvalue dst src = (src, Outcome.value ())

/-- The construction from a non-const lvalue exists and leaves that lvalue as
it was, as a copy constructor from `const T&` does. -/
def MovableElement.LvalueConstructionKeepsSource (E : MovableElement ε T) : Prop :=
  ∃ c, E.construct_from_lvalue = some c ∧ ∀ x r, c x = Outcome.value r → r.2 = x

/-- The construction from a non-const lvalue exists, returns, gives the new
object the value of the lvalue, and leaves the lvalue as it was. -/
def MovableElement.FaithfulLvalueConstruction (E : MovableElement ε T) : Prop :=
  ∃ c, E.construct_from_lvalue = some c ∧ ∀ x, c x = Outcome.value (x, x)

/-- Move construction returns, and the new object has the value its source
had. -/
def MovableElement.FaithfulMove (E : MovableElement ε T) : Prop :=
  ∀ x, ∃ r, E.move_construct x = Outcome.value (x, r)

/-- Assignment from an rvalue returns, and leaves in the target the value of
the source. -/
def MovableElement.FaithfulAssign (E : MovableElement ε T) : Prop :=
  ∀ dst src, E.assign_rvalue dst src = (src, Outcome.value ())

end

/-! ## Lemmas on outcomes and accessors -/

section
variable {ε T U : Type}

@[simp] theorem Outcome.value_bind {α β : Type} (a : α) (k : α → Outcome ε β) :
    (Outcome.value a >>= k) = k a := rfl

@[simp] theorem Outcome.throws_bind {α β : Type} (e : ε) (k : α → Outcome ε β) :
    (Outcome.throws e >>= k) = Outcome.throws e := rfl

@[simp] theorem Outcome.terminate_bind {α β : Type} (k : α → Outcome ε β) :
    ((Outcome.terminate : Outcome ε α) >>= k) = Outcome.terminate := rfl

@[simp] theorem Outcome.pure_eq_value {α : Type} (a : α) :
    (pure a : Outcome ε α) = Outcome.value a := rfl

@[simp] theorem noexcept_value {α : Type} (a : α) :
    noexcept (Outcome.value a : Outcome ε α) = Outcome.value a := rfl

@[simp] theorem noexcept_throws {α : Type} (e : ε) :
    noexcept (Outcome.throws e : Outcome ε α) = Outcome.terminate := rfl

@[simp] theorem noexcept_terminate {α : Type} :
    noexcept (Outcome.terminate : Outcome ε α) = Outcome.terminate := rfl

@[simp] theorem noexcept_noexcept {α : Type} (o : Outcome ε α) :
    noexcept (noexcept o) = noexcept o := by
  cases o <;> rfl

@[simp] theorem noexceptIf_value {α : Type} (b : Bool) (a : α) :
    noexceptIf b (Outcome.value a : Outcome ε α) = Outcome.value a := by
  cases b <;> rfl

theorem first_of_faithful {E : Element ε T} (hE : E.FaithfulCopy) (p : pair T U) :
    p.first E = Outcome.value p.m_first := by
  simp [pair.first, hE p.m_first]

theorem second_of_faithful {F : Element ε U} (hF : F.FaithfulCopy) (p : pair T U) :
    p.second F = Outcome.value p.m_second := by
  simp [pair.second, hF p.m_second]

theorem Outcome.bind_eq_value {α β : Type} {o : Outcome ε α} {k : α → Outcome ε β} {v : β}
    (h : (o >>= k) = Outcome.value v) : ∃ a, o = Outcome.value a ∧ k a = Outcome.value v := by
  cases o with
  | value a => exact ⟨a, rfl, h⟩
  | throws e => cases h
  | terminate => cases h

theorem noexcept_eq_value {α : Type} {o : Outcome ε α} {v : α}
    (h : noexcept o = Outcome.value v) : o = Outcome.value v := by
  cases o with
  | value a => exact h
  | throws e => cases h
  | terminate => cases h

theorem noexceptIf_eq_value {α : Type} {b : Bool} {o : Outcome ε α} {v : α}
    (h : noexceptIf b o = Outcome.value v) : o = Outcome.value v := by
  cases b with
  | false => exact h
  | true => exact noexcept_eq_value h

@[simp] theorem noexceptIf_terminate {α : Type} (b : Bool) :
    noexceptIf b (Outcome.terminate : Outcome ε α) = Outcome.terminate := by
  cases b <;> rfl

/-- On element types that are copied by `T(const T&)` the move constructor on
every element type is well-formed and is `pair.pair_move`. -/
theorem pair_move_general_toMovable (E : Element ε T) (F : Element ε U) (other : pair T U) :
    pair.pair_move_general E.toMovable F.toMovable other =
      Formed.well_formed (pair.pair_move E F other) := by
  simp only [pair.pair_move_general, Element.toMovable, pair.pair_move, pair.first,
    pair.second, pair.first_nonconst, pair.second_nonconst]
  congr 2
  cases h1 : E.copy_construct other.m_first with
  | value a =>
    cases h2 : E.move_construct a with
    | value r1 =>
      cases h3 : F.copy_construct other.m_second with
      | value b =>
        cases h4 : F.move_construct b <;> simp [h1, h2, h3, h4]
      | throws e => simp [h1, h2, h3]
      | terminate => simp [h1, h2, h3]
    | throws e => simp [h1, h2]
    | terminate => simp [h1, h2]
  | throws e => simp [h1]
  | terminate => simp [h1]


/-- An accessor called on a non-const lvalue hands the pair back as it was
when the construction from an lvalue keeps its source. -/
theorem first_nonconst_keeps {c : T → Outcome ε (T × T)}
    (hc : ∀ x r, c x = Outcome.value r → r.2 = x) {other : pair T U} {a : T × pair T U}
    (h : other.first_nonconst c = Outcome.value a) : a.2 = other := by
  unfold pair.first_nonconst at h
  obtain ⟨r, hr, h1⟩ := Outcome.bind_eq_value (noexcept_eq_value h)
  have h2 := Outcome.value.inj h1
  rw [← h2, hc _ _ hr]

theorem second_nonconst_keeps {c : U → Outcome ε (U × U)}
    (hc : ∀ x r, c x = Outcome.value r → r.2 = x) {other : pair T U} {a : U × pair T U}
    (h : other.second_nonconst c = Outcome.value a) : a.2 = other := by
  unfold pair.second_nonconst at h
  obtain ⟨r, hr, h1⟩ := Outcome.bind_eq_value (noexcept_eq_value h)
  have h2 := Outcome.value.inj h1
  rw [← h2, hc _ _ hr]

/-- The first statement of the move assignment leaves `rhs` as it was when the
construction from an lvalue keeps its source. -/
theorem move_assign_first_keeps_rhs (E : MovableElement ε T) {c : T → Outcome ε (T × T)}
    (hc : ∀ x r, c x = Outcome.value r → r.2 = x) (st : pair T U × pair T U) :
    (pair.move_assign_first E c st).1.2 = st.2 := by
  unfold pair.move_assign_first
  cases h : st.2.first_nonconst c with
  | value a => exact first_nonconst_keeps hc h
  | throws e => rfl
  | terminate => rfl

theorem move_assign_second_keeps_rhs (F : MovableElement ε U) {c : U → Outcome ε (U × U)}
    (hc : ∀ x r, c x = Outcome.value r → r.2 = x) (st : pair T U × pair T U) :
    (pair.move_assign_second F c st).1.2 = st.2 := by
  unfold pair.move_assign_second
  cases h : st.2.second_nonconst c with
  | value a => exact second_nonconst_keeps hc h
  | throws e => rfl
  | terminate => rfl


/-- On element types that are copied by `T(const T&)` the move assignment on
every element type is well-formed, leaves `rhs` as it was, and is
`pair.operator_assign_move`. -/
theorem operator_assign_move_general_toMovable (E : Element ε T) (F : Element ε U)
    (self rhs : pair T U) :
    pair.operator_assign_move_general E.toMovable F.toMovable self rhs =
      Formed.well_formed (((self.operator_assign_move E F rhs).1, rhs),
        (self.operator_assign_move E F rhs).2) := by
  have h1 : ∀ st : pair T U × pair T U,
      pair.move_assign_first E.toMovable
        (fun x => do let c ← E.copy_construct x; pure (c, x)) st =
      (((st.1.assign_first E st.2).1, st.2), (st.1.assign_first E st.2).2) := by
    intro st
    simp only [pair.move_assign_first, pair.assign_first, pair.first_nonconst, pair.first,
      Element.toMovable]
    cases h : E.copy_construct st.2.m_first <;> simp [h]
  have h2 : ∀ st : pair T U × pair T U,
      pair.move_assign_second F.toMovable
        (fun x => do let c ← F.copy_construct x; pure (c, x)) st =
      (((st.1.assign_second F st.2).1, st.2), (st.1.assign_second F st.2).2) := by
    intro st
    simp only [pair.move_assign_second, pair.assign_second, pair.second_nonconst, pair.second,
      Element.toMovable]
    cases h : F.copy_construct st.2.m_second <;> simp [h]
  have hcE : E.toMovable.construct_from_lvalue =
      some (fun x => do let c ← E.copy_construct x; pure (c, x)) := rfl
  have hcF : F.toMovable.construct_from_lvalue =
      some (fun x => do let c ← F.copy_construct x; pure (c, x)) := rfl
  have hnE : E.toMovable.nothrow_move_assignable = E.nothrow_move_assignable := rfl
  have hnF : F.toMovable.nothrow_move_assignable = F.nothrow_move_assignable := rfl
  simp only [pair.operator_assign_move_general, pair.operator_assign_move, hcE, hcF, hnE, hnF,
    h1, h2]
  rcases hf : self.assign_first E rhs with ⟨s1, o1⟩
  cases o1 with
  | value u =>
    rcases hs : s1.assign_second F rhs with ⟨s2, o2⟩
    cases o2 <;> simp [andThen, hs, h2]
  | throws e => simp [andThen]
  | terminate => simp [andThen]


end

/-! ## The claims -/

section
variable {ε T U : Type}

/-- C1. With element copies that keep the value, the two-value constructor
`pair(a, b)` returns a pair whose `first()` returns `a` and whose `second()`
returns `b`; and whatever the caller writes to `a` and `b` afterwards, the
accessors of the pair still return the values `a` and `b` had at
construction. -/
theorem C1_two_value_constructor_stores_copies (E : Element ε T) (F : Element ε U)
    (hE : E.FaithfulCopy) (hF : F.FaithfulCopy) (a : T) (b : U) :
    ∃ p, pair.pair_values E F a b = Outcome.value p ∧
      p.first E = Outcome.value a ∧ p.second F = Outcome.value b ∧
      ∃ s, ValueScope.declare_p E F a b = Outcome.value s ∧ s.a = a ∧ s.b = b ∧ s.p = p ∧
        ∀ (a2 : T) (b2 : U),
          ((s.set_a a2).set_b b2).a = a2 ∧ ((s.set_a a2).set_b b2).b = b2 ∧
          ((s.set_a a2).set_b b2).p.first E = Outcome.value a ∧
          ((s.set_a a2).set_b b2).p.second F = Outcome.value b := by
  refine ⟨⟨a, b⟩, ?_, ?_, ?_, ⟨a, b, ⟨a, b⟩⟩, ?_, rfl, rfl, rfl, ?_⟩
  · simp [pair.pair_values, hE a, hF b]
  · exact first_of_faithful hE _
  · exact second_of_faithful hF _
  · simp [ValueScope.declare_p, pair.pair_values, hE a, hF b]
  · intro a2 b2
    exact ⟨rfl, rfl, first_of_faithful hE _, second_of_faithful hF _⟩

/-- Witness of C1 on `pair<int, int>`, built from `a = 1`, `b = 2`. -/
theorem C1_two_value_constructor_stores_copies_witness :
    ∃ p, pair.pair_values (intElement : Element Unit Int) (intElement : Element Unit Int) 1 2
        = Outcome.value p ∧
      p.first (intElement : Element Unit Int) = Outcome.value 1 ∧
      p.second (intElement : Element Unit Int) = Outcome.value 2 ∧
      ∃ s, ValueScope.declare_p (intElement : Element Unit Int)
          (intElement : Element Unit Int) 1 2 = Outcome.value s ∧
        s.a = 1 ∧ s.b = 2 ∧ s.p = p ∧
        ∀ (a2 : Int) (b2 : Int),
          ((s.set_a a2).set_b b2).a = a2 ∧ ((s.set_a a2).set_b b2).b = b2 ∧
          ((s.set_a a2).set_b b2).p.first (intElement : Element Unit Int) = Outcome.value 1 ∧
          ((s.set_a a2).set_b b2).p.second (intElement : Element Unit Int) = Outcome.value 2 :=
  C1_two_value_constructor_stores_copies intElement intElement (fun _ => rfl) (fun _ => rfl) 1 2

/-- C2, evaluated on the code. For every pair type and every two pairs,
`lexicographical_compare(lhs, rhs)` is ill-formed: it applies `std::tie` to
the prvalues that `first()` and `second()` return. `lhs < rhs`, which calls
it, is ill-formed with it. Neither returns a value, so neither returns the
value of the lexicographic rule. -/
theorem C2_lexicographical_compare_ill_formed (C : TupleComparisons T U) (E : Element ε T)
    (F : Element ε U) (lhs rhs : pair T U) :
    lexicographical_compare C E F lhs rhs = Formed.ill_formed ∧
    operator_lt C E F lhs rhs = Formed.ill_formed ∧
    (∀ o : Outcome ε Bool, lexicographical_compare C E F lhs rhs ≠ Formed.well_formed o) ∧
    (∀ o : Outcome ε Bool, operator_lt C E F lhs rhs ≠ Formed.well_formed o) :=
  ⟨rfl, rfl, fun _ h => Formed.noConfusion h, fun _ h => Formed.noConfusion h⟩

/-- C3, evaluated on the code. For every pair type and every two pairs,
`lhs == rhs` is ill-formed: it applies `std::tie` to the prvalues that
`first()` and `second()` return, and returns no value. -/
theorem C3_operator_eq_ill_formed (C : TupleComparisons T U) (E : Element ε T)
    (F : Element ε U) (lhs rhs : pair T U) :
    operator_eq C E F lhs rhs = Formed.ill_formed ∧
    (∀ o : Outcome ε Bool, operator_eq C E F lhs rhs ≠ Formed.well_formed o) :=
  ⟨rfl, fun _ h => Formed.noConfusion h⟩

/-- C4, evaluated on the code. Whatever the orders of `T` and `U` are, for
every two pairs `a` and `b` none of `a < b`, `a == b`, `b < a` is true, since
none compiles; so it is not the case that exactly one of them holds, and
`a < a` does not return false. -/
theorem C4_operator_lt_no_order (C : TupleComparisons T U) (E : Element ε T)
    (F : Element ε U) (a b : pair T U) :
    operator_lt C E F a b ≠ Formed.well_formed (Outcome.value true) ∧
    operator_eq C E F a b ≠ Formed.well_formed (Outcome.value true) ∧
    operator_lt C E F b a ≠ Formed.well_formed (Outcome.value true) ∧
    operator_lt C E F a a ≠ Formed.well_formed (Outcome.value false) ∧
    operator_lt C E F a a = Formed.ill_formed :=
  ⟨fun h => Formed.noConfusion h, fun h => Formed.noConfusion h,
    fun h => Formed.noConfusion h, fun h => Formed.noConfusion h, rfl⟩

/-- C5, evaluated on the code. On `pair<int, int>` the three comparisons
`(1, 2) < (1, 3)`, `(1, 2) == (1, 2)` and `(2, 1) > (1, 3)` are ill-formed;
and for every pair type and every two pairs, `a > b` and `a < b` are
ill-formed whatever the first fields are. -/
theorem C5_first_field_dominance_ill_formed :
    operator_lt intTupleComparisons (intElement : Element Unit Int)
      (intElement : Element Unit Int) ⟨1, 2⟩ ⟨1, 3⟩ = Formed.ill_formed ∧
    operator_eq intTupleComparisons (intElement : Element Unit Int)
      (intElement : Element Unit Int) ⟨1, 2⟩ ⟨1, 2⟩ = Formed.ill_formed ∧
    operator_gt intTupleComparisons (intElement : Element Unit Int)
      (intElement : Element Unit Int) ⟨2, 1⟩ ⟨1, 3⟩ = Formed.ill_formed ∧
    (∀ {ε T U : Type} (C : TupleComparisons T U) (E : Element ε T) (F : Element ε U)
        (a b : pair T U),
      operator_gt C E F a b = Formed.ill_formed ∧ operator_lt C E F a b = Formed.ill_formed) :=
  ⟨rfl, rfl, rfl, fun _ _ _ _ _ => ⟨rfl, rfl⟩⟩

/-- C6, evaluated on the code. Whatever `==` on `T` and on `U` is, for every
pair `a` the comparison `a == a` is ill-formed and so is not true, and for
every two pairs `a == b` is ill-formed. -/
theorem C6_operator_eq_not_reflexive (C : TupleComparisons T U) (E : Element ε T)
    (F : Element ε U) (a b : pair T U) :
    operator_eq C E F a a ≠ Formed.well_formed (Outcome.value true) ∧
    operator_eq C E F a a = Formed.ill_formed ∧
    operator_eq C E F a b = Formed.ill_formed :=
  ⟨fun h => Formed.noConfusion h, rfl, rfl⟩

/-- C7, evaluated on the code. For every two pairs, `a != b` calls `a == b`,
which is ill-formed, and is ill-formed with it: it returns no value, so not
the negation of one. -/
theorem C7_operator_ne_ill_formed (C : TupleComparisons T U) (E : Element ε T)
    (F : Element ε U) (a b : pair T U) :
    operator_ne C E F a b = Formed.ill_formed ∧
    operator_eq C E F a b = Formed.ill_formed ∧
    (∀ o : Outcome ε Bool, operator_ne C E F a b ≠ Formed.well_formed o) :=
  ⟨rfl, rfl, fun _ h => Formed.noConfusion h⟩

/-- C8, evaluated on the code. For every two pairs, `a > b`, `a <= b` and
`a >= b` call `lexicographical_compare` or `operator<`, which are ill-formed,
and are ill-formed with them: none of the derived operators returns a
value. -/
theorem C8_derived_operators_ill_formed (C : TupleComparisons T U) (E : Element ε T)
    (F : Element ε U) (a b : pair T U) :
    operator_gt C E F a b = Formed.ill_formed ∧
    operator_le C E F a b = Formed.ill_formed ∧
    operator_ge C E F a b = Formed.ill_formed ∧
    operator_lt C E F b a = Formed.ill_formed ∧
    operator_ge C E F b a = Formed.ill_formed :=
  ⟨rfl, rfl, rfl, rfl, rfl⟩

/-- C9. When copies keep the value and `==` on the element types is
reflexive, the declaration `pair q(p)` returns, leaves `p` as it was, and
gives a `q` whose accessors return what the accessors of `p` return, values
that compare equal by the `==` of the element types; and after any assignment
`q = r`, whatever the element assignment does, the accessors of `p` still
return the same values. The comparison `q == p` of the two pairs, however, is
ill-formed. -/
theorem C9_copy_constructor_independent_copy (C : TupleComparisons T U)
    (E : Element ε T) (F : Element ε U)
    (hcE : E.FaithfulCopy) (hcF : F.FaithfulCopy)
    (hrE : E.EqReflexive) (hrF : F.EqReflexive) (p : pair T U) :
    ∃ (x : T) (y : U) (s : PairScope T U),
      p.first E = Outcome.value x ∧ p.second F = Outcome.value y ∧
      PairScope.declare_q_copy E F p = Outcome.value s ∧
      pair.pair_copy E F p = Outcome.value s.q ∧ s.p = p ∧
      s.q.first E = Outcome.value x ∧ s.q.second F = Outcome.value y ∧
      E.eq x x = true ∧ F.eq y y = true ∧
      (∀ r : pair T U,
        (PairScope.assign_q E F s r).1.p.first E = Outcome.value x ∧
        (PairScope.assign_q E F s r).1.p.second F = Outcome.value y) ∧
      operator_eq C E F s.q s.p = Formed.ill_formed := by
  refine ⟨p.m_first, p.m_second, ⟨p, p⟩, first_of_faithful hcE p, second_of_faithful hcF p,
    ?_, ?_, rfl, first_of_faithful hcE p, second_of_faithful hcF p, hrE _, hrF _, ?_, rfl⟩
  · simp [PairScope.declare_q_copy, pair.pair_copy, first_of_faithful hcE p,
      second_of_faithful hcF p]
  · simp [pair.pair_copy, first_of_faithful hcE p, second_of_faithful hcF p]
  · intro r
    exact ⟨first_of_faithful hcE p, second_of_faithful hcF p⟩

/-- Witness of C9 on `pair<int, int>` at `p = (1, 2)`; it carries the failing
input, `q == p`. -/
theorem C9_copy_constructor_independent_copy_witness :
    ∃ (x : Int) (y : Int) (s : PairScope Int Int),
      pair.first (intElement : Element Unit Int) (⟨1, 2⟩ : pair Int Int) = Outcome.value x ∧
      pair.second (intElement : Element Unit Int) (⟨1, 2⟩ : pair Int Int) = Outcome.value y ∧
      PairScope.declare_q_copy (intElement : Element Unit Int)
        (intElement : Element Unit Int) ⟨1, 2⟩ = Outcome.value s ∧
      pair.pair_copy (intElement : Element Unit Int)
        (intElement : Element Unit Int) ⟨1, 2⟩ = Outcome.value s.q ∧
      s.p = ⟨1, 2⟩ ∧
      s.q.first (intElement : Element Unit Int) = Outcome.value x ∧
      s.q.second (intElement : Element Unit Int) = Outcome.value y ∧
      (intElement : Element Unit Int).eq x x = true ∧
      (intElement : Element Unit Int).eq y y = true ∧
      (∀ r : pair Int Int,
        (PairScope.assign_q (intElement : Element Unit Int)
          (intElement : Element Unit Int) s r).1.p.first
            (intElement : Element Unit Int) = Outcome.value x ∧
        (PairScope.assign_q (intElement : Element Unit Int)
          (intElement : Element Unit Int) s r).1.p.second
            (intElement : Element Unit Int) = Outcome.value y) ∧
      operator_eq intTupleComparisons (intElement : Element Unit Int)
        (intElement : Element Unit Int) s.q s.p = Formed.ill_formed :=
  C9_copy_constructor_independent_copy intTupleComparisons intElement intElement
    (fun _ => rfl) (fun _ => rfl) (fun x => by simp [intElement])
    (fun x => by simp [intElement]) ⟨1, 2⟩

/-- C10, evaluated on the code. The move constructor of the pair, which
requires only that the element types can be moved, is ill-formed as soon as
one of them cannot be constructed from an lvalue, because it reads `other`
through the accessors, which copy. For element types whose construction from
an lvalue and whose move keep the value, it is well-formed, returns, and
gives a pair whose slots hold, and whose accessors return, the values `p`
held before the move. -/
theorem C10_move_constructor_needs_copy (E : MovableElement ε T) (F : MovableElement ε U)
    (p : pair T U) :
    ((E.construct_from_lvalue = none ∨ F.construct_from_lvalue = none) →
      pair.pair_move_general E F p = Formed.ill_formed ∧
      PairScope.declare_q_move E F p = Formed.ill_formed) ∧
    (E.FaithfulLvalueConstruction → F.FaithfulLvalueConstruction →
      E.FaithfulMove → F.FaithfulMove →
      ∃ (q p2 : pair T U),
        pair.pair_move_general E F p = Formed.well_formed (Outcome.value (q, p2)) ∧
        PairScope.declare_q_move E F p = Formed.well_formed (Outcome.value ⟨p2, q⟩) ∧
        q.m_first = p.m_first ∧ q.m_second = p.m_second ∧
        (∀ c1, E.construct_from_lvalue = some c1 →
          q.first_nonconst c1 = Outcome.value (p.m_first, q)) ∧
        (∀ c2, F.construct_from_lvalue = some c2 →
          q.second_nonconst c2 = Outcome.value (p.m_second, q))) := by
  refine ⟨?_, ?_⟩
  · intro h
    have h1 : pair.pair_move_general E F p = Formed.ill_formed := by
      unfold pair.pair_move_general
      rcases h with h | h
      · rw [h]
      · rw [h]
        cases E.construct_from_lvalue <;> rfl
    exact ⟨h1, by simp [PairScope.declare_q_move, h1, Formed.map]⟩
  · rintro ⟨c1, hc1, hf1⟩ ⟨c2, hc2, hf2⟩ hmE hmF
    obtain ⟨r1, h1⟩ := hmE p.m_first
    obtain ⟨r2, h2⟩ := hmF p.m_second
    have hm : pair.pair_move_general E F p =
        Formed.well_formed (Outcome.value (⟨p.m_first, p.m_second⟩, p)) := by
      simp [pair.pair_move_general, hc1, hc2, pair.first_nonconst, pair.second_nonconst,
        hf1, hf2, h1, h2]
    refine ⟨⟨p.m_first, p.m_second⟩, p, hm,
      by simp [PairScope.declare_q_move, hm, Formed.map], rfl, rfl, ?_, ?_⟩
    · intro d1 hd1
      have : d1 = c1 := Option.some.inj (hd1.symm.trans hc1)
      subst this
      simp [pair.first_nonconst, hf1]
    · intro d2 hd2
      have : d2 = c2 := Option.some.inj (hd2.symm.trans hc2)
      subst this
      simp [pair.second_nonconst, hf2]

/-- Witness of C10: the failing input, `pair<std::unique_ptr<int>, int>`
holding a pointer to `7` and `3`, whose move constructor is ill-formed; and
`pair<std::vector<int>, int>` holding `({1, 2}, 3)`, where it returns a
pair with the same values. -/
theorem C10_move_constructor_needs_copy_witness :
    (pair.pair_move_general (uniquePtrElement : MovableElement Unit (Option Int))
        (intElement : Element Unit Int).toMovable ⟨some 7, 3⟩ = Formed.ill_formed ∧
      PairScope.declare_q_move (uniquePtrElement : MovableElement Unit (Option Int))
        (intElement : Element Unit Int).toMovable ⟨some 7, 3⟩ = Formed.ill_formed) ∧
    (∃ (q p2 : pair (List Int) Int),
      pair.pair_move_general (vectorElement : Element Unit (List Int)).toMovable
        (intElement : Element Unit Int).toMovable ⟨[1, 2], 3⟩
        = Formed.well_formed (Outcome.value (q, p2)) ∧
      PairScope.declare_q_move (vectorElement : Element Unit (List Int)).toMovable
        (intElement : Element Unit Int).toMovable ⟨[1, 2], 3⟩
        = Formed.well_formed (Outcome.value ⟨p2, q⟩) ∧
      q.m_first = [1, 2] ∧ q.m_second = 3 ∧
      (∀ c1, (vectorElement : Element Unit (List Int)).toMovable.construct_from_lvalue
          = some c1 → q.first_nonconst c1 = Outcome.value ([1, 2], q)) ∧
      (∀ c2, (intElement : Element Unit Int).toMovable.construct_from_lvalue
          = some c2 → q.second_nonconst c2 = Outcome.value (3, q))) :=
  ⟨(C10_move_constructor_needs_copy uniquePtrElement (intElement : Element Unit Int).toMovable
      ⟨some 7, 3⟩).1 (Or.inl rfl),
   (C10_move_constructor_needs_copy (vectorElement : Element Unit (List Int)).toMovable
      (intElement : Element Unit Int).toMovable ⟨[1, 2], 3⟩).2
      ⟨_, rfl, fun _ => rfl⟩ ⟨_, rfl, fun _ => rfl⟩ (fun _ => ⟨_, rfl⟩) (fun _ => ⟨_, rfl⟩)⟩

/-- C11. Copy assignment `x = y`. For every element type: a call that
completes returns a reference to `*this`, the object `x`, so that
`(x = y) = z` is `x = y` followed by the assignment of `z` to `x`; and the
first slot is assigned before the second: when the assignment of the first
element raises, the second slot of `x` is still untouched, and when the
assignment of the second element raises, the first slot of `x` already holds
its new value. With copies and element assignments that keep the value:
`x = y` completes, afterwards the accessors of `x` return what the accessors
of `y` return, and `y` and `z` are unchanged; `(x = y) = z` completes, leaves
in `x` the values of `z`, and leaves `y` and `z` unchanged. -/
theorem C11_copy_assignment (E : Element ε T) (F : Element ε U) :
    (∀ (x y : pair T U) (d : Designated),
      (x.operator_assign_copy E F y).2 = Outcome.value d → d = Designated.star_this) ∧
    (∀ (s : AssignScope T U) (d : Designated),
      (s.assign_x_y E F).2 = Outcome.value d →
      s.assign_chain E F =
        ({ (s.assign_x_y E F).1 with
            x := ((s.assign_x_y E F).1.x.operator_assign_copy E F s.z).1 },
         ((s.assign_x_y E F).1.x.operator_assign_copy E F s.z).2)) ∧
    (E.FaithfulCopy → F.FaithfulCopy → E.FaithfulAssign → F.FaithfulAssign →
      ∀ s : AssignScope T U, ∃ (a : T) (b : U) (c : T) (d : U),
        s.y.first E = Outcome.value a ∧ s.y.second F = Outcome.value b ∧
        s.z.first E = Outcome.value c ∧ s.z.second F = Outcome.value d ∧
        (s.assign_x_y E F).1.x.first E = Outcome.value a ∧
        (s.assign_x_y E F).1.x.second F = Outcome.value b ∧
        (s.assign_x_y E F).1.y = s.y ∧ (s.assign_x_y E F).1.z = s.z ∧
        (s.assign_x_y E F).2 = Outcome.value Designated.star_this ∧
        (s.assign_chain E F).1.x.first E = Outcome.value c ∧
        (s.assign_chain E F).1.x.second F = Outcome.value d ∧
        (s.assign_chain E F).1.y = s.y ∧ (s.assign_chain E F).1.z = s.z ∧
        (s.assign_chain E F).2 = Outcome.value Designated.star_this) ∧
    (∀ (x y : pair T U) (t1 m1 : T) (e : ε),
      y.first E = Outcome.value t1 →
      E.assign_rvalue x.m_first t1 = (m1, Outcome.throws e) →
      (x.operator_assign_copy E F y).1 = ⟨m1, x.m_second⟩ ∧
      (x.operator_assign_copy E F y).2 =
        noexceptIf (E.nothrow_copy_assignable && F.nothrow_copy_assignable)
          (Outcome.throws e)) ∧
    (∀ (x y : pair T U) (t1 m1 : T) (t2 m2 : U) (e : ε),
      y.first E = Outcome.value t1 →
      E.assign_rvalue x.m_first t1 = (m1, Outcome.value ()) →
      y.second F = Outcome.value t2 →
      F.assign_rvalue x.m_second t2 = (m2, Outcome.throws e) →
      (x.operator_assign_copy E F y).1 = ⟨m1, m2⟩ ∧
      (x.operator_assign_copy E F y).2 =
        noexceptIf (E.nothrow_copy_assignable && F.nothrow_copy_assignable)
          (Outcome.throws e)) := by
  have hthis : ∀ (x y : pair T U) (d : Designated),
      (x.operator_assign_copy E F y).2 = Outcome.value d → d = Designated.star_this := by
    intro x y d h
    have h0 := noexceptIf_eq_value h
    unfold andThen at h0
    rcases h1 : x.assign_first E y with ⟨s1, o1⟩
    rw [h1] at h0
    cases o1 with
    | value u =>
      simp only at h0
      rcases h2 : s1.assign_second F y with ⟨s2, o2⟩
      rw [h2] at h0
      cases o2 with
      | value u2 => exact (Outcome.value.inj h0).symm
      | throws e => cases h0
      | terminate => cases h0
    | throws e => cases h0
    | terminate => cases h0
  refine ⟨hthis, ?_, ?_, ?_, ?_⟩
  · intro s d h
    have hd : d = Designated.star_this := hthis s.x s.y d h
    subst hd
    unfold AssignScope.assign_chain
    rcases h1 : s.assign_x_y E F with ⟨s1, o1⟩
    rw [h1] at h
    simp only at h
    subst h
    have hz : s1.z = s.z := by
      have := congrArg (fun r => r.1.z) h1
      simpa [AssignScope.assign_x_y] using this.symm
    simp [AssignScope.assign_z_through, hz]
  · intro hcE hcF haE haF s
    have hxy : ∀ x y : pair T U,
        x.operator_assign_copy E F y = (y, Outcome.value Designated.star_this) := by
      intro x y
      simp [pair.operator_assign_copy, pair.assign_first, pair.assign_second, andThen,
        first_of_faithful hcE, second_of_faithful hcF, haE _ _, haF _ _]
    refine ⟨s.y.m_first, s.y.m_second, s.z.m_first, s.z.m_second,
      first_of_faithful hcE _, second_of_faithful hcF _,
      first_of_faithful hcE _, second_of_faithful hcF _, ?_⟩
    simp [AssignScope.assign_x_y, AssignScope.assign_chain, AssignScope.assign_z_through, hxy,
      first_of_faithful hcE, second_of_faithful hcF]
  · intro x y t1 m1 e h1 h2
    simp [pair.operator_assign_copy, pair.assign_first, andThen, h1, h2]
  · intro x y t1 m1 t2 m2 e h1 h2 h3 h4
    simp [pair.operator_assign_copy, pair.assign_first, pair.assign_second, andThen,
      h1, h2, h3, h4]

/-- Witness of C11: on `pair<int, int>` with `x = (1, 2)`, `y = (3, 4)`,
`z = (5, 6)`; and on the element type whose assignment of `0` raises, with
`x = (7, 8)` and `y = (0, 5)`, then `y = (5, 0)`. -/
theorem C11_copy_assignment_witness :
    AssignScope.assign_chain (intElement : Element Unit Int) (intElement : Element Unit Int)
      ⟨⟨1, 2⟩, ⟨3, 4⟩, ⟨5, 6⟩⟩ =
      (⟨⟨5, 6⟩, ⟨3, 4⟩, ⟨5, 6⟩⟩, Outcome.value Designated.star_this) ∧
    (∃ (a : Int) (b : Int) (c : Int) (d : Int),
      pair.first (intElement : Element Unit Int) (⟨3, 4⟩ : pair Int Int) = Outcome.value a ∧
      pair.second (intElement : Element Unit Int) (⟨3, 4⟩ : pair Int Int) = Outcome.value b ∧
      pair.first (intElement : Element Unit Int) (⟨5, 6⟩ : pair Int Int) = Outcome.value c ∧
      pair.second (intElement : Element Unit Int) (⟨5, 6⟩ : pair Int Int) = Outcome.value d ∧
      (AssignScope.assign_x_y (intElement : Element Unit Int) (intElement : Element Unit Int)
        ⟨⟨1, 2⟩, ⟨3, 4⟩, ⟨5, 6⟩⟩).1.x.first (intElement : Element Unit Int) = Outcome.value a ∧
      (AssignScope.assign_x_y (intElement : Element Unit Int) (intElement : Element Unit Int)
        ⟨⟨1, 2⟩, ⟨3, 4⟩, ⟨5, 6⟩⟩).1.x.second (intElement : Element Unit Int) = Outcome.value b ∧
      (AssignScope.assign_x_y (intElement : Element Unit Int) (intElement : Element Unit Int)
        ⟨⟨1, 2⟩, ⟨3, 4⟩, ⟨5, 6⟩⟩).1.y = ⟨3, 4⟩ ∧
      (AssignScope.assign_x_y (intElement : Element Unit Int) (intElement : Element Unit Int)
        ⟨⟨1, 2⟩, ⟨3, 4⟩, ⟨5, 6⟩⟩).1.z = ⟨5, 6⟩ ∧
      (AssignScope.assign_x_y (intElement : Element Unit Int) (intElement : Element Unit Int)
        ⟨⟨1, 2⟩, ⟨3, 4⟩, ⟨5, 6⟩⟩).2 = Outcome.value Designated.star_this ∧
      (AssignScope.assign_chain (intElement : Element Unit Int) (intElement : Element Unit Int)
        ⟨⟨1, 2⟩, ⟨3, 4⟩, ⟨5, 6⟩⟩).1.x.first (intElement : Element Unit Int) = Outcome.value c ∧
      (AssignScope.assign_chain (intElement : Element Unit Int) (intElement : Element Unit Int)
        ⟨⟨1, 2⟩, ⟨3, 4⟩, ⟨5, 6⟩⟩).1.x.second (intElement : Element Unit Int) = Outcome.value d ∧
      (AssignScope.assign_chain (intElement : Element Unit Int) (intElement : Element Unit Int)
        ⟨⟨1, 2⟩, ⟨3, 4⟩, ⟨5, 6⟩⟩).1.y = ⟨3, 4⟩ ∧
      (AssignScope.assign_chain (intElement : Element Unit Int) (intElement : Element Unit Int)
        ⟨⟨1, 2⟩, ⟨3, 4⟩, ⟨5, 6⟩⟩).1.z = ⟨5, 6⟩ ∧
      (AssignScope.assign_chain (intElement : Element Unit Int) (intElement : Element Unit Int)
        ⟨⟨1, 2⟩, ⟨3, 4⟩, ⟨5, 6⟩⟩).2 = Outcome.value Designated.star_this) ∧
    ((pair.operator_assign_copy fragileElement fragileElement
        (⟨7, 8⟩ : pair Int Int) ⟨0, 5⟩).1 = ⟨7, 8⟩ ∧
      (pair.operator_assign_copy fragileElement fragileElement
        (⟨7, 8⟩ : pair Int Int) ⟨0, 5⟩).2 = Outcome.throws Failure.assign_failed) ∧
    ((pair.operator_assign_copy fragileElement fragileElement
        (⟨7, 8⟩ : pair Int Int) ⟨5, 0⟩).1 = ⟨5, 8⟩ ∧
      (pair.operator_assign_copy fragileElement fragileElement
        (⟨7, 8⟩ : pair Int Int) ⟨5, 0⟩).2 = Outcome.throws Failure.assign_failed) :=
  ⟨(C11_copy_assignment (intElement : Element Unit Int) (intElement : Element Unit Int)).2.1
      ⟨⟨1, 2⟩, ⟨3, 4⟩, ⟨5, 6⟩⟩ Designated.star_this rfl,
   (C11_copy_assignment intElement intElement).2.2.1 (fun _ => rfl) (fun _ => rfl)
      (fun _ _ => rfl) (fun _ _ => rfl) ⟨⟨1, 2⟩, ⟨3, 4⟩, ⟨5, 6⟩⟩,
   (C11_copy_assignment fragileElement fragileElement).2.2.2.1 ⟨7, 8⟩ ⟨0, 5⟩ 0 7
      Failure.assign_failed rfl rfl,
   (C11_copy_assignment fragileElement fragileElement).2.2.2.2 ⟨7, 8⟩ ⟨5, 0⟩ 5 5 0 8
      Failure.assign_failed rfl rfl rfl rfl⟩

/-- C13. For every pair `p`: `get<0>(p)` is `p.first()` and `get<1>(p)` is
`p.second()`; the arity is 2; `tuple_element` has the types `T` and `U` at the
indices 0 and 1 and no type at any other index; with copies and moves that
keep the value, `auto [a, b] = p;` binds `a` and `b` to what `p.first()` and
`p.second()` return. For every other index, however, `get` is instantiated as
well: it has the return type `void` and returns. -/
theorem C13_get_and_destructuring (E : Element ε T) (F : Element ε U) (p : pair T U) :
    get 0 E F p = p.first E ∧
    get 1 E F p = p.second F ∧
    tuple_size T U = 2 ∧
    tuple_element T U 0 = some T ∧
    tuple_element T U 1 = some U ∧
    (∀ i : Nat, tuple_element T U (i + 2) = none) ∧
    (E.FaithfulCopy → F.FaithfulCopy → E.FaithfulMove → F.FaithfulMove →
      ∃ (a : T) (b : U), p.first E = Outcome.value a ∧ p.second F = Outcome.value b ∧
        destructure E F p = Outcome.value (a, b)) ∧
    (∀ i : Nat, get (i + 2) E F p = Outcome.value ()) := by
  refine ⟨?_, ?_, rfl, rfl, rfl, fun _ => rfl, ?_, fun _ => rfl⟩
  · simp [get, pair.first]
  · simp [get, pair.second]
  · intro hcE hcF hmE hmF
    obtain ⟨r1, h1⟩ := hmE p.m_first
    obtain ⟨r2, h2⟩ := hmF p.m_second
    refine ⟨p.m_first, p.m_second, first_of_faithful hcE p, second_of_faithful hcF p, ?_⟩
    simp [destructure, pair.pair_copy, first_of_faithful hcE p, second_of_faithful hcF p,
      get_rvalue, pair.first_rvalue, pair.second_rvalue, h1, h2]

/-- Witness of C13: the destructuring of `p = ({1, 2}, 3)` on
`pair<std::vector<int>, int>`; and the failing input, `get<2>` on
`pair<int, int>` holding `(1, 2)`, which is accepted and returns nothing while
`tuple_element` has no type at 2. -/
theorem C13_get_and_destructuring_witness :
    (∃ (a : List Int) (b : Int),
      pair.first (vectorElement : Element Unit (List Int)) (⟨[1, 2], 3⟩ : pair (List Int) Int)
        = Outcome.value a ∧
      pair.second (intElement : Element Unit Int) (⟨[1, 2], 3⟩ : pair (List Int) Int)
        = Outcome.value b ∧
      destructure (vectorElement : Element Unit (List Int)) (intElement : Element Unit Int)
        ⟨[1, 2], 3⟩ = Outcome.value (a, b)) ∧
    get 2 (intElement : Element Unit Int) (intElement : Element Unit Int) ⟨1, 2⟩
      = Outcome.value () ∧
    tuple_element Int Int 2 = none :=
  ⟨(C13_get_and_destructuring vectorElement intElement ⟨[1, 2], 3⟩).2.2.2.2.2.2.1
      (fun _ => rfl) (fun _ => rfl) (fun _ => ⟨_, rfl⟩) (fun _ => ⟨_, rfl⟩),
   (C13_get_and_destructuring (intElement : Element Unit Int) (intElement : Element Unit Int)
      ⟨1, 2⟩).2.2.2.2.2.2.2 0,
   (C13_get_and_destructuring (intElement : Element Unit Int) (intElement : Element Unit Int)
      ⟨1, 2⟩).2.2.2.2.2.1 0⟩

/-- C15, evaluated on the code. A write through the result of `first()` or of
`second()` on a mutable pair does not reach the pair: the accessor returns by
value, so after `p.first() = std::move(v);` the pair is as it was, and a later
`first()` returns what it returned before, not `v`. -/
theorem C15_write_through_accessor_not_observed (E : Element ε T) (F : Element ε U)
    (p : pair T U) (v : T) (w : U) :
    (p.write_through_first E v).1 = p ∧
    (p.write_through_first E v).1.first E = p.first E ∧
    (p.write_through_second F w).1 = p ∧
    (p.write_through_second F w).1.second F = p.second F := by
  have h1 : (p.write_through_first E v).1 = p := by
    unfold pair.write_through_first
    cases p.first E <;> rfl
  have h2 : (p.write_through_second F w).1 = p := by
    unfold pair.write_through_second
    cases p.second F <;> rfl
  exact ⟨h1, by rw [h1], h2, by rw [h2]⟩

/-- The failing input of C15: on `pair<std::vector<int>, std::vector<int>>`
holding `({1, 2}, {3})`, the statement `p.first() = {9};` completes, and
afterwards `p.first()` still returns `{1, 2}`. -/
theorem C15_write_through_accessor_not_observed_witness :
    (pair.write_through_first (vectorElement : Element Unit (List Int))
      (⟨[1, 2], [3]⟩ : pair (List Int) (List Int)) [9]).2 = Outcome.value () ∧
    (pair.write_through_first (vectorElement : Element Unit (List Int))
      (⟨[1, 2], [3]⟩ : pair (List Int) (List Int)) [9]).1.first
        (vectorElement : Element Unit (List Int)) = Outcome.value [1, 2] :=
  ⟨rfl, (C15_write_through_accessor_not_observed (vectorElement : Element Unit (List Int))
    (vectorElement : Element Unit (List Int)) ⟨[1, 2], [3]⟩ [9] [9]).2.1⟩

/-- C16, evaluated on the code. When the copy constructor of the first element
raises `e` on the slot of `p`, no operation of the pair that reads `p` raises
`e`: the copy runs inside the accessor `first()`, which is declared
`noexcept`, so the copy constructor, the move constructor, the copy assignment
and the move assignment all end in `std::terminate`. -/
theorem C16_element_copy_failure_terminates (E : Element ε T) (F : Element ε U)
    (p x : pair T U) (e : ε) (h : E.copy_construct p.m_first = Outcome.throws e) :
    pair.pair_copy E F p = Outcome.terminate ∧
    pair.pair_move E F p = Outcome.terminate ∧
    (x.operator_assign_copy E F p).2 = Outcome.terminate ∧
    (x.operator_assign_move E F p).2 = Outcome.terminate := by
  have hn : ∀ (b : Bool) (α : Type), noexceptIf b (Outcome.terminate : Outcome ε α)
      = Outcome.terminate := by
    intro b α; cases b <;> rfl
  have hf : p.first E = Outcome.terminate := by simp [pair.first, h]
  refine ⟨?_, ?_, ?_, ?_⟩
  · simp [pair.pair_copy, hf, hn]
  · simp [pair.pair_move, hf, hn]
  · simp [pair.operator_assign_copy, pair.assign_first, andThen, hf, hn]
  · simp [pair.operator_assign_move, pair.assign_first, andThen, hf, hn]

/-- The failing input of C16: on the element type whose copy of a negative
value raises `copy_failed`, with `p = (-1, 2)` and `x = (3, 4)`, the four
operations end in `std::terminate`; none raises `copy_failed`. -/
theorem C16_element_copy_failure_terminates_witness :
    pair.pair_copy fragileElement fragileElement (⟨-1, 2⟩ : pair Int Int)
      = Outcome.terminate ∧
    pair.pair_move fragileElement fragileElement (⟨-1, 2⟩ : pair Int Int)
      = Outcome.terminate ∧
    (pair.operator_assign_copy fragileElement fragileElement
      (⟨3, 4⟩ : pair Int Int) ⟨-1, 2⟩).2 = Outcome.terminate ∧
    (pair.operator_assign_move fragileElement fragileElement
      (⟨3, 4⟩ : pair Int Int) ⟨-1, 2⟩).2 = Outcome.terminate :=
  C16_element_copy_failure_terminates fragileElement fragileElement ⟨-1, 2⟩ ⟨3, 4⟩
    Failure.copy_failed rfl

/-- C17, evaluated on the code. The `noexcept` clause of a constructor decides
what becomes of an exception of an element operation it runs itself (here the
move of the first element in the move constructor). On the instrumented
element type, whose move is declared non-raising and whose copy is not: the
default, two-value and copy constructors run the operations their clauses
name; the move constructor is declared non-raising, yet each slot of the pair
it builds was made by the copy constructor of the element, then by its move
constructor. -/
theorem C17_noexcept_clauses_and_operations_run :
    (∀ {ε T U : Type} (E : Element ε T) (F : Element ε U) (other : pair T U) (t : T) (e : ε),
      other.first E = Outcome.value t → E.move_construct t = Outcome.throws e →
      pair.pair_move E F other = noexceptIf (pair.pair_move_noexcept E F) (Outcome.throws e)) ∧
    (pair.pair_default_noexcept (tracedElement : Element Unit (Int × List ElementOp))
        (tracedElement : Element Unit (Int × List ElementOp)) = true ∧
      pair.pair_default (tracedElement : Element Unit (Int × List ElementOp))
        (tracedElement : Element Unit (Int × List ElementOp)) =
        Outcome.value ⟨(0, [ElementOp.default_construct]), (0, [ElementOp.default_construct])⟩) ∧
    (pair.pair_values_noexcept (tracedElement : Element Unit (Int × List ElementOp))
        (tracedElement : Element Unit (Int × List ElementOp)) = false ∧
      pair.pair_values (tracedElement : Element Unit (Int × List ElementOp))
        (tracedElement : Element Unit (Int × List ElementOp)) (1, []) (2, []) =
        Outcome.value ⟨(1, [ElementOp.copy_construct]), (2, [ElementOp.copy_construct])⟩) ∧
    (pair.pair_copy_noexcept (tracedElement : Element Unit (Int × List ElementOp))
        (tracedElement : Element Unit (Int × List ElementOp)) = false ∧
      pair.pair_copy (tracedElement : Element Unit (Int × List ElementOp))
        (tracedElement : Element Unit (Int × List ElementOp)) ⟨(1, []), (2, [])⟩ =
        Outcome.value ⟨(1, [ElementOp.copy_construct]), (2, [ElementOp.copy_construct])⟩) ∧
    (pair.pair_move_noexcept (tracedElement : Element Unit (Int × List ElementOp))
        (tracedElement : Element Unit (Int × List ElementOp)) = true ∧
      (tracedElement : Element Unit (Int × List ElementOp)).nothrow_copy_constructible
        = false ∧
      pair.pair_move (tracedElement : Element Unit (Int × List ElementOp))
        (tracedElement : Element Unit (Int × List ElementOp)) ⟨(1, []), (2, [])⟩ =
        Outcome.value
          (⟨(1, [ElementOp.copy_construct, ElementOp.move_construct]),
            (2, [ElementOp.copy_construct, ElementOp.move_construct])⟩,
           ⟨(1, []), (2, [])⟩)) := by
  refine ⟨?_, ⟨rfl, rfl⟩, ⟨rfl, rfl⟩, ⟨rfl, rfl⟩, ⟨rfl, rfl, rfl⟩⟩
  intro ε T U E F other t e h1 h2
  simp [pair.pair_move, pair.pair_move_noexcept, h1, h2]

/-- The failing input of C17: the move constructor of the pair on the
instrumented element type, declared non-raising, runs the copy constructor of
the element, which is not. -/
theorem C17_noexcept_clauses_and_operations_run_witness :
    pair.pair_move_noexcept (tracedElement : Element Unit (Int × List ElementOp))
      (tracedElement : Element Unit (Int × List ElementOp)) = true ∧
    (tracedElement : Element Unit (Int × List ElementOp)).nothrow_copy_constructible = false ∧
    pair.pair_move (tracedElement : Element Unit (Int × List ElementOp))
      (tracedElement : Element Unit (Int × List ElementOp)) ⟨(1, []), (2, [])⟩ =
      Outcome.value
        (⟨(1, [ElementOp.copy_construct, ElementOp.move_construct]),
          (2, [ElementOp.copy_construct, ElementOp.move_construct])⟩,
         ⟨(1, []), (2, [])⟩) :=
  C17_noexcept_clauses_and_operations_run.2.2.2.2

/-- C19, as amended. For element types whose construction from a non-const
lvalue leaves that lvalue as it was, as a copy constructor from `const T&`
does, and whatever their move does to its source: whenever
`pair q(std::move(p))` returns, `p` is as it was before; `q = std::move(p)` is
well-formed and, however it ends, leaves `p` as it was before. When moreover
constructions from an lvalue, moves and assignments keep the value, both
complete, and `q` holds the values of `p`. -/
theorem C19_move_leaves_source_unchanged (E : MovableElement ε T) (F : MovableElement ε U)
    (hE : E.LvalueConstructionKeepsSource) (hF : F.LvalueConstructionKeepsSource) :
    (∀ (p q p2 : pair T U),
      pair.pair_move_general E F p = Formed.well_formed (Outcome.value (q, p2)) → p2 = p) ∧
    (∀ (p : pair T U) (s : PairScope T U),
      PairScope.declare_q_move E F p = Formed.well_formed (Outcome.value s) → s.p = p) ∧
    (∀ s : PairScope T U, ∃ r,
      s.move_assign_q_p E F = Formed.well_formed r ∧ r.1.p = s.p) ∧
    (E.FaithfulLvalueConstruction → F.FaithfulLvalueConstruction →
      E.FaithfulMove → F.FaithfulMove →
      ∀ p : pair T U,
        PairScope.declare_q_move E F p = Formed.well_formed (Outcome.value ⟨p, p⟩)) ∧
    (E.FaithfulLvalueConstruction → F.FaithfulLvalueConstruction →
      E.FaithfulAssign → F.FaithfulAssign →
      ∀ s : PairScope T U,
        s.move_assign_q_p E F =
          Formed.well_formed (⟨s.p, s.p⟩, Outcome.value Designated.star_this)) := by
  obtain ⟨c1, hc1, hk1⟩ := hE
  obtain ⟨c2, hc2, hk2⟩ := hF
  have hmove : ∀ (p q p2 : pair T U),
      pair.pair_move_general E F p = Formed.well_formed (Outcome.value (q, p2)) →
      p2 = p := by
    intro p q p2 h
    simp only [pair.pair_move_general, hc1, hc2] at h
    have h0 := noexceptIf_eq_value (Formed.well_formed.inj h)
    obtain ⟨a, ha, h1⟩ := Outcome.bind_eq_value h0
    obtain ⟨r1, _, h2⟩ := Outcome.bind_eq_value h1
    obtain ⟨b, hb, h3⟩ := Outcome.bind_eq_value h2
    obtain ⟨r2, _, h4⟩ := Outcome.bind_eq_value h3
    have h5 := congrArg Prod.snd (Outcome.value.inj h4)
    simp only at h5
    rw [← h5, second_nonconst_keeps hk2 hb, first_nonconst_keeps hk1 ha]
  refine ⟨hmove, ?_, ?_, ?_, ?_⟩
  · intro p s h
    unfold PairScope.declare_q_move at h
    cases hg : pair.pair_move_general E F p with
    | ill_formed => rw [hg] at h; cases h
    | well_formed run =>
      rw [hg] at h
      have h1 := Formed.well_formed.inj h
      obtain ⟨r, hr, h2⟩ := Outcome.bind_eq_value h1
      have h3 := Outcome.value.inj h2
      have h4 : r.2 = p := hmove p r.1 r.2 (by rw [hg, hr])
      rw [← h3]
      exact h4
  · intro s
    simp only [PairScope.move_assign_q_p, pair.operator_assign_move_general, hc1, hc2,
      Formed.map]
    refine ⟨_, rfl, ?_⟩
    simp only [andThen]
    have k1 := move_assign_first_keeps_rhs (U := U) E hk1 (s.q, s.p)
    rcases h1 : pair.move_assign_first E c1 (s.q, s.p) with ⟨st1, o1⟩
    rw [h1] at k1
    simp only at k1
    cases o1 with
    | value u =>
      simp only
      have k2 := move_assign_second_keeps_rhs (T := T) F hk2 st1
      rcases h2 : pair.move_assign_second F c2 st1 with ⟨st2, o2⟩
      rw [h2] at k2
      simp only at k2
      cases o2 <;> simp only <;> rw [k2, k1]
    | throws e => exact k1
    | terminate => exact k1
  · rintro ⟨d1, hd1, hf1⟩ ⟨d2, hd2, hf2⟩ hmE hmF p
    obtain ⟨r1, h1⟩ := hmE p.m_first
    obtain ⟨r2, h2⟩ := hmF p.m_second
    simp [PairScope.declare_q_move, Formed.map, pair.pair_move_general, hd1, hd2,
      pair.first_nonconst, pair.second_nonconst, hf1, hf2, h1, h2]
  · rintro ⟨d1, hd1, hf1⟩ ⟨d2, hd2, hf2⟩ haE haF s
    simp [PairScope.move_assign_q_p, Formed.map, pair.operator_assign_move_general, hd1, hd2,
      pair.move_assign_first, pair.move_assign_second, andThen,
      pair.first_nonconst, pair.second_nonconst, hf1, hf2, haE _ _, haF _ _]

/-- Witness of C19 on `pair<std::vector<int>, std::vector<int>>`, whose element
move empties its source: after `pair q(std::move(p))` with `p = ({1, 2}, {3})`,
and after `q = std::move(p)` with `q = ({}, {})`, `p` still holds
`({1, 2}, {3})`, and `q` holds it as well. -/
theorem C19_move_leaves_source_unchanged_witness :
    PairScope.declare_q_move (vectorElement : Element Unit (List Int)).toMovable
      (vectorElement : Element Unit (List Int)).toMovable ⟨[1, 2], [3]⟩
      = Formed.well_formed (Outcome.value ⟨⟨[1, 2], [3]⟩, ⟨[1, 2], [3]⟩⟩) ∧
    PairScope.move_assign_q_p (vectorElement : Element Unit (List Int)).toMovable
      (vectorElement : Element Unit (List Int)).toMovable ⟨⟨[1, 2], [3]⟩, ⟨[], []⟩⟩
      = Formed.well_formed
          (⟨⟨[1, 2], [3]⟩, ⟨[1, 2], [3]⟩⟩, Outcome.value Designated.star_this) :=
  ⟨(C19_move_leaves_source_unchanged (vectorElement : Element Unit (List Int)).toMovable
      (vectorElement : Element Unit (List Int)).toMovable
      ⟨_, rfl, fun x r h => by cases h; rfl⟩ ⟨_, rfl, fun x r h => by cases h; rfl⟩).2.2.2.1
      ⟨_, rfl, fun _ => rfl⟩ ⟨_, rfl, fun _ => rfl⟩ (fun _ => ⟨_, rfl⟩) (fun _ => ⟨_, rfl⟩)
      ⟨[1, 2], [3]⟩,
   (C19_move_leaves_source_unchanged (vectorElement : Element Unit (List Int)).toMovable
      (vectorElement : Element Unit (List Int)).toMovable
      ⟨_, rfl, fun x r h => by cases h; rfl⟩ ⟨_, rfl, fun x r h => by cases h; rfl⟩).2.2.2.2
      ⟨_, rfl, fun _ => rfl⟩ ⟨_, rfl, fun _ => rfl⟩ (fun _ _ => rfl) (fun _ _ => rfl)
      ⟨⟨[1, 2], [3]⟩, ⟨[], []⟩⟩⟩

/-- Counterexample to C19 as stated: on an element type with a constructor
`Thief(Thief&)` that empties its argument, `pair q(std::move(p))` with
`p = (5, 6)` returns and leaves `(0, 0)` in `p`; and `q = std::move(p)` with
`p = (5, 6)` completes and leaves `(0, 0)` in `p`. -/
theorem C19_counterexample_thief :
    PairScope.declare_q_move (thiefElement : MovableElement Unit Int)
      (thiefElement : MovableElement Unit Int) ⟨5, 6⟩
      = Formed.well_formed (Outcome.value ⟨⟨0, 0⟩, ⟨5, 6⟩⟩) ∧
    PairScope.move_assign_q_p (thiefElement : MovableElement Unit Int)
      (thiefElement : MovableElement Unit Int) ⟨⟨5, 6⟩, ⟨1, 2⟩⟩
      = Formed.well_formed (⟨⟨0, 0⟩, ⟨5, 6⟩⟩, Outcome.value Designated.star_this) ∧
    (⟨0, 0⟩ : pair Int Int) ≠ ⟨5, 6⟩ :=
  ⟨rfl, rfl, by decide⟩

/-- C20, evaluated on the code. Whatever the orders of `T` and `U` are, for
every two pairs `a` and `b` the comparisons `a <= b`, `a >= b`, `a < b`,
`a > b` and `a == b` are ill-formed; none of them is true, so `a <= b` is not
true when `a == b` should be, and `a <= b` and `b <= a` are not both true for
any pair. -/
theorem C20_non_strict_operators_ill_formed (C : TupleComparisons T U) (E : Element ε T)
    (F : Element ε U) (a b : pair T U) :
    operator_le C E F a b = Formed.ill_formed ∧
    operator_ge C E F a b = Formed.ill_formed ∧
    operator_le C E F b a = Formed.ill_formed ∧
    operator_lt C E F a b = Formed.ill_formed ∧
    operator_gt C E F a b = Formed.ill_formed ∧
    operator_eq C E F a b = Formed.ill_formed ∧
    operator_le C E F a a ≠ Formed.well_formed (Outcome.value true) :=
  ⟨rfl, rfl, rfl, rfl, rfl, rfl, fun h => Formed.noConfusion h⟩


end

end PairHxx
